import Mathlib

/-!
Verification of the Phone-Number-Validator repository against its
natural-language specification.

The repository's only source file, `src/Projecttt.js`, is a React component.
Its validation engine is the external `libphonenumber-js` dependency (the
calls `isValidPhoneNumber` / `parsePhoneNumber`), which is not part of this
repository's sources; the spec (sections 2-4) describes that engine.  The
engine is therefore modelled here from the spec, while the wrapper logic of
`analyzePhoneNumber` (country-name lookup, carrier tables, result records)
is embedded directly from `src/Projecttt.js`.
-/

namespace PhoneValidator

/-- Modelled from the spec (section 7): typed failures of the validation
facade.  The engine itself is missing from `src/` (it lives in the external
`libphonenumber-js` dependency), so the error taxonomy follows the spec. -/
inductive ValidationError where
  | EmptyInputError
  | AmbiguousRegionError
deriving DecidableEq

/-- Modelled from the spec (section 3, `format_rules`): one formatting rule.
`leading_digits` is the leading-digits pattern, given as per-position digit
ranges; `groups` is the template, given as the sizes of the space-separated
digit groups. -/
structure FormatRule where
  leading_digits : List (Nat × Nat)
  groups : List Nat
deriving DecidableEq

/-- Modelled from the spec (section 3, `RegionMetadata`): per-region
numbering-plan rules.  `general_pattern` constrains the leading digits of
the national significant number by per-position ranges (the remaining
positions admit any digit; total length is constrained separately by
`possible_lengths`).  `trunk_code` is the spec's optional national-prefix
digit(s). -/
structure RegionMetadata where
  region_code : String
  country_calling_code : Nat
  is_main_region_for_code : Bool
  general_pattern : List (Nat × Nat)
  possible_lengths : List Nat
  format_rules : List FormatRule
  trunk_code : Option (List Char)
deriving DecidableEq

/-- Modelled from the spec (section 3): the spec's `number_type`
classification tags.  The modelled metadata distinguishes no sub-patterns,
so every match classifies as `UNKNOWN`. -/
inductive NumberType where
  | FIXED_LINE
  | MOBILE
  | UNKNOWN
deriving DecidableEq

/-- Modelled from the spec (section 3, `ParsedPhoneNumber`): the result of
a validation call, extended with the optional formatted renderings the
facade attaches (section 4.5 composes the formatter "optionally"). -/
structure ParsedPhoneNumber where
  country_calling_code : Option Nat
  region_code : String
  national_significant_number : String
  raw_input : String
  number_type : NumberType
  is_valid : Bool
  international_format : Option String
  national_format : Option String
deriving DecidableEq

/-- Modelled from the spec (section 3): the Metadata Store entry for the
United States (main NANPA region, calling code 1). -/
def usMeta : RegionMetadata :=
  { region_code := "US", country_calling_code := 1,
    is_main_region_for_code := true,
    general_pattern := [(2, 9)], possible_lengths := [10],
    format_rules := [{ leading_digits := [], groups := [3, 3, 4] }],
    trunk_code := none }

/-- Modelled from the spec (section 3): Canada, sharing NANPA calling
code 1 with the US, not the main region for the code. -/
def caMeta : RegionMetadata :=
  { region_code := "CA", country_calling_code := 1,
    is_main_region_for_code := false,
    general_pattern := [(2, 9)], possible_lengths := [10],
    format_rules := [{ leading_digits := [], groups := [3, 3, 4] }],
    trunk_code := none }

/-- Modelled from the spec (section 3): the United Kingdom (calling code
44, national prefix 0). -/
def gbMeta : RegionMetadata :=
  { region_code := "GB", country_calling_code := 44,
    is_main_region_for_code := true,
    general_pattern := [(1, 9)], possible_lengths := [9, 10],
    format_rules := [{ leading_digits := [], groups := [2, 4, 4] }],
    trunk_code := some ['0'] }

/-- Modelled from the spec (section 3): Germany (calling code 49,
national prefix 0, variable national-number lengths). -/
def deMeta : RegionMetadata :=
  { region_code := "DE", country_calling_code := 49,
    is_main_region_for_code := true,
    general_pattern := [(1, 9)], possible_lengths := [6, 7, 8, 9, 10, 11],
    format_rules := [{ leading_digits := [], groups := [2, 8] }],
    trunk_code := some ['0'] }

/-- Modelled from the spec (section 3): France (calling code 33,
national prefix 0). -/
def frMeta : RegionMetadata :=
  { region_code := "FR", country_calling_code := 33,
    is_main_region_for_code := true,
    general_pattern := [(1, 9)], possible_lengths := [9],
    format_rules := [{ leading_digits := [], groups := [1, 2, 2, 2, 2] }],
    trunk_code := some ['0'] }

/-- Modelled from the spec (section 3): India (calling code 91, mobile
numbers lead with 6-9, national prefix 0). -/
def inMeta : RegionMetadata :=
  { region_code := "IN", country_calling_code := 91,
    is_main_region_for_code := true,
    general_pattern := [(6, 9)], possible_lengths := [10],
    format_rules := [{ leading_digits := [], groups := [5, 5] }],
    trunk_code := some ['0'] }

/-- Modelled from the spec (section 3): Australia (calling code 61,
national prefix 0). -/
def auMeta : RegionMetadata :=
  { region_code := "AU", country_calling_code := 61,
    is_main_region_for_code := true,
    general_pattern := [(1, 9)], possible_lengths := [9],
    format_rules := [{ leading_digits := [], groups := [1, 4, 4] }],
    trunk_code := some ['0'] }

/-- Modelled from the spec (section 3): Japan (calling code 81, national
prefix 0); included as a region with no entry in the wrapper's carrier
table. -/
def jpMeta : RegionMetadata :=
  { region_code := "JP", country_calling_code := 81,
    is_main_region_for_code := true,
    general_pattern := [(1, 9)], possible_lengths := [9, 10],
    format_rules := [{ leading_digits := [], groups := [2, 4, 4] }],
    trunk_code := some ['0'] }

/-- Modelled from the spec (section 3): the Metadata Store, loaded once
and immutable, in stable order. -/
def metadataList : List RegionMetadata :=
  [usMeta, caMeta, gbMeta, deMeta, frMeta, inMeta, auMeta, jpMeta]

/-- Modelled from the spec (section 4.2): the calling-code index of the
Metadata Store.  Calling codes are 1-3 digits and prefix-free across
lengths by construction of the data set. -/
def registeredCodes : List Nat :=
  [1, 44, 49, 91, 33, 61, 81]

/-- Numeric value of an ASCII digit character. -/
def digitVal (c : Char) : Nat :=
  c.toNat - 48

/-- Modelled from the spec (section 3): test the leading digits of a
digit sequence against per-position ranges; positions beyond the pattern
are unconstrained. -/
def leadingOk : List (Nat × Nat) → List Char → Bool
  | [], _ => true
  | _ :: _, [] => false
  | (lo, hi) :: ps, c :: cs =>
    decide (lo ≤ digitVal c) && decide (digitVal c ≤ hi) && leadingOk ps cs

/-- Modelled from the spec (section 4.1, Normalizer): the characters the
normalizer retains, digits and plus signs. -/
def keepChar (c : Char) : Bool :=
  c.isDigit || c == '+'

/-- Modelled from the spec (section 4.1, Normalizer): discard everything
but digits and plus signs; fail with `EmptyInputError` when nothing
remains; keep the digits and report whether the first retained character
is a plus. -/
def normalize (raw : String) : Except ValidationError (List Char × Bool) :=
  match raw.data.filter keepChar with
  | [] => .error .EmptyInputError
  | c :: cs => .ok ((c :: cs).filter Char.isDigit, c == '+')

/-- Modelled from the spec (section 4.2): try a single calling-code
length against the calling-code index. -/
def matchCodeLen (k : Nat) (ds : List Char) : Option (Nat × List Char) :=
  match registeredCodes.find?
      (fun c => decide ((toString c).data.length = k) &&
                decide (ds.take k = (toString c).data)) with
  | some c => some (c, ds.drop k)
  | none => none

/-- Modelled from the spec (section 4.2): greedily try calling-code
lengths from longest (3) to shortest (1); the first length that matches a
registered calling code wins. -/
def matchCode (ds : List Char) : Option (Nat × List Char) :=
  match matchCodeLen 3 ds with
  | some r => some r
  | none =>
    match matchCodeLen 2 ds with
    | some r => some r
    | none => matchCodeLen 1 ds

/-- Modelled from the spec (section 4.2): all regions sharing a calling
code, the region marked as main for the code first, then the rest in the
data set's stable order. -/
def candidatesFor (ccc : Nat) : List RegionMetadata :=
  let rs := metadataList.filter (fun m => m.country_calling_code == ccc)
  rs.filter (fun m => m.is_main_region_for_code) ++
    rs.filter (fun m => !m.is_main_region_for_code)

/-- Modelled from the spec (section 4.3): strip the region's national
prefix when present, never require it. -/
def stripTrunk (m : RegionMetadata) (ds : List Char) : List Char :=
  match m.trunk_code with
  | none => ds
  | some p => if ds.take p.length = p then ds.drop p.length else ds

/-- Modelled from the spec (section 4.3): a digit sequence satisfies a
region when its length is a possible length and it matches the region's
general pattern. -/
def regionMatches (m : RegionMetadata) (ds : List Char) : Bool :=
  m.possible_lengths.contains ds.length && leadingOk m.general_pattern ds

/-- Modelled from the spec (section 4.3, Number Matcher): the first
candidate region whose national-prefix-stripped digit sequence satisfies
its length and pattern rules, together with the stripped sequence. -/
def matchRegion : List RegionMetadata → List Char → Option (RegionMetadata × List Char)
  | [], _ => none
  | m :: ms, ds =>
    if regionMatches m (stripTrunk m ds) then some (m, stripTrunk m ds)
    else matchRegion ms ds

/-- Modelled from the spec (section 4.4): split a digit sequence into
space-separated groups of the given sizes. -/
def groupChars : List Nat → List Char → List Char
  | [], ds => ds
  | g :: gs, ds =>
    if ds.drop g = [] then ds
    else ds.take g ++ ' ' :: groupChars gs (ds.drop g)

/-- Modelled from the spec (section 4.4): scan `format_rules` in order;
the first rule whose leading-digits pattern matches supplies the template;
fall back to the undivided digit string when no rule matches or the digit
count does not satisfy the template's group structure. -/
def applyRules (m : RegionMetadata) (nsn : List Char) : List Char :=
  match m.format_rules.find? (fun fr => leadingOk fr.leading_digits nsn) with
  | none => nsn
  | some fr =>
    if fr.groups.sum = nsn.length then groupChars fr.groups nsn else nsn

/-- Modelled from the spec (section 4.4): international format,
`"+" ++ country calling code ++ " " ++ template applied to the digits`. -/
def intlFormatStr (m : RegionMetadata) (ccc : Nat) (nsn : List Char) : String :=
  "+" ++ toString ccc ++ " " ++ String.mk (applyRules m nsn)

/-- Modelled from the spec (section 4.4): national format, the template
applied to the digits with the national prefix prepended when the region
defines one. -/
def natlFormatStr (m : RegionMetadata) (nsn : List Char) : String :=
  String.mk ((match m.trunk_code with | some p => p | none => []) ++ applyRules m nsn)

/-- Modelled from the spec (section 4.2, Calling-Code Resolver): explicit
plus or a detected IDD prefix ("011" or "00") triggers greedy calling-code
matching; otherwise a supplied default region fixes the calling code; with
neither, fail with `AmbiguousRegionError`.  A detected prefix that matches
no registered calling code resolves to no calling code (`none`), which the
facade renders as an invalid result rather than an error. -/
def resolve (digits : List Char) (explicitPlus : Bool) (defaultRegion : Option String) :
    Except ValidationError (Option (Nat × List Char)) :=
  if explicitPlus then .ok (matchCode digits)
  else if digits.take 3 = ['0', '1', '1'] then .ok (matchCode (digits.drop 3))
  else if digits.take 2 = ['0', '0'] then .ok (matchCode (digits.drop 2))
  else
    match defaultRegion with
    | some rc =>
      match metadataList.find? (fun m => m.region_code == rc) with
      | some m => .ok (some (m.country_calling_code, digits))
      | none => .error .AmbiguousRegionError
    | none => .error .AmbiguousRegionError

/-- Modelled from the spec (sections 3, 4.5): the successful result record
for a matched region. -/
def mkValidParsed (raw : String) (ccc : Nat) (m : RegionMetadata) (nsn : List Char) :
    ParsedPhoneNumber :=
  { country_calling_code := some ccc, region_code := m.region_code,
    national_significant_number := String.mk nsn, raw_input := raw,
    number_type := .UNKNOWN, is_valid := true,
    international_format := some (intlFormatStr m ccc nsn),
    national_format := some (natlFormatStr m nsn) }

/-- Modelled from the spec (sections 3, 4.3): the invalid-but-successful
result record, retaining the resolved calling code when one was found. -/
def mkInvalidParsed (raw : String) (ccc : Option Nat) : ParsedPhoneNumber :=
  { country_calling_code := ccc, region_code := "unknown",
    national_significant_number := "", raw_input := raw,
    number_type := .UNKNOWN, is_valid := false,
    international_format := none, national_format := none }

/-- Modelled from the spec (section 4.5, Validation Facade): compose
Normalizer, Resolver, Matcher and Formatter; merely invalid numbers are
successful results with `is_valid = false`; only empty or unresolvable
input is a hard error. -/
def validate (raw : String) (defaultRegion : Option String) :
    Except ValidationError ParsedPhoneNumber :=
  match normalize raw with
  | .error e => .error e
  | .ok (digits, explicitPlus) =>
    match resolve digits explicitPlus defaultRegion with
    | .error e => .error e
    | .ok none => .ok (mkInvalidParsed raw none)
    | .ok (some (ccc, rest)) =>
      match matchRegion (candidatesFor ccc) rest with
      | some (m, nsn) => .ok (mkValidParsed raw ccc m nsn)
      | none => .ok (mkInvalidParsed raw (some ccc))

/-- Embedded from `src/Projecttt.js` (lines 25-91): the `countryNames`
record mapping region codes to display names. -/
def countryNames : List (String × String) :=
  [("US", "United States"), ("CA", "Canada"), ("GB", "United Kingdom"),
   ("AU", "Australia"), ("DE", "Germany"), ("FR", "France"),
   ("IT", "Italy"), ("ES", "Spain"), ("BR", "Brazil"), ("IN", "India"),
   ("CN", "China"), ("JP", "Japan"), ("RU", "Russia"), ("MX", "Mexico"),
   ("AR", "Argentina"), ("CL", "Chile"), ("CO", "Colombia"), ("PE", "Peru"),
   ("VE", "Venezuela"), ("ZA", "South Africa"), ("EG", "Egypt"),
   ("NG", "Nigeria"), ("KE", "Kenya"), ("MA", "Morocco"), ("TN", "Tunisia"),
   ("GH", "Ghana"), ("TR", "Turkey"), ("SA", "Saudi Arabia"),
   ("AE", "United Arab Emirates"), ("IL", "Israel"), ("KW", "Kuwait"),
   ("QA", "Qatar"), ("BH", "Bahrain"), ("OM", "Oman"), ("JO", "Jordan"),
   ("LB", "Lebanon"), ("SY", "Syria"), ("IQ", "Iraq"), ("IR", "Iran"),
   ("AF", "Afghanistan"), ("PK", "Pakistan"), ("BD", "Bangladesh"),
   ("LK", "Sri Lanka"), ("NP", "Nepal"), ("BT", "Bhutan"),
   ("MV", "Maldives"), ("TH", "Thailand"), ("VN", "Vietnam"),
   ("KH", "Cambodia"), ("LA", "Laos"), ("MM", "Myanmar"),
   ("MY", "Malaysia"), ("SG", "Singapore"), ("ID", "Indonesia"),
   ("PH", "Philippines"), ("KR", "South Korea"), ("TW", "Taiwan"),
   ("HK", "Hong Kong"), ("MO", "Macau"), ("MN", "Mongolia"),
   ("KZ", "Kazakhstan"), ("UZ", "Uzbekistan"), ("TM", "Turkmenistan"),
   ("KG", "Kyrgyzstan"), ("TJ", "Tajikistan")]

/-- Embedded from `src/Projecttt.js` (lines 93-101): the `carrierInfo`
record mapping seven region codes to hand-curated carrier name lists. -/
def carrierInfo : List (String × List String) :=
  [("US", ["Verizon", "AT&T", "T-Mobile", "Sprint"]),
   ("IN", ["Airtel", "Jio", "Vi (Vodafone Idea)", "BSNL"]),
   ("GB", ["EE", "O2", "Three", "Vodafone"]),
   ("DE", ["Deutsche Telekom", "Vodafone", "Telefónica"]),
   ("FR", ["Orange", "SFR", "Bouygues", "Free"]),
   ("CA", ["Rogers", "Bell", "Telus"]),
   ("AU", ["Telstra", "Optus", "Vodafone"])]

/-- Embedded from `src/Projecttt.js` (lines 5-13): the `PhoneInfo`
interface; every field except `isValid` is optional and absent by
default. -/
structure PhoneInfo where
  isValid : Bool
  country : Option String := none
  countryCode : Option String := none
  region : Option String := none
  nationalNumber : Option String := none
  internationalFormat : Option String := none
  carrier : Option String := none
deriving DecidableEq

/-- Embedded from `src/Projecttt.js` (lines 116-130): the result record
built for a valid number.  `parsed?.country` is the engine's matched
region code.  The call `Math.floor(Math.random() * carriers.length)`
draws an index below `carriers.length`; the draw is made explicit as the
`rand` parameter, taken modulo the list length exactly as the floored
product ranges over the same indices.  An empty carrier list yields
`undefined` (`none`), as in the source's length guard. -/
def mkValidInfo (rand : Nat) (parsed : ParsedPhoneNumber) : PhoneInfo :=
  let country : Option String := some parsed.region_code
  let countryName : Option String :=
    match country with
    | some c => some ((countryNames.lookup c).getD c)
    | none => none
  let carriers : List String :=
    match country with
    | some c => (carrierInfo.lookup c).getD []
    | none => []
  let randomCarrier : Option String := carriers.get? (rand % carriers.length)
  { isValid := true, country := countryName, countryCode := country,
    region := countryName,
    nationalNumber := some parsed.national_significant_number,
    internationalFormat := parsed.international_format,
    carrier := randomCarrier }

/-- Embedded from `src/Projecttt.js` (lines 103-144): `analyzePhoneNumber`.
Blank input clears the result (`none`); the guard `!number.trim()` holds
exactly when every character of the input is whitespace.  The engine calls
(`isValidPhoneNumber` / `parsePhoneNumber` from the external
`libphonenumber-js` dependency) are represented by the spec-modelled
`validate`; an engine failure lands in the `catch` branch, which, like the
not-valid branch, produces a bare `isValid = false` record.  The UI timers
(`setTimeout`, the analyzing flag) carry no data and are omitted. -/
def analyzePhoneNumber (rand : Nat) (number : String) : Option PhoneInfo :=
  if number.data.all Char.isWhitespace then none
  else
    match validate number none with
    | .ok parsed =>
      if parsed.is_valid then some (mkValidInfo rand parsed)
      else some { isValid := false }
    | .error _ => some { isValid := false }

/-! ### Helper lemmas about the engine -/

/-- Every character produced by the normalizer's digit output is a digit. -/
theorem normalize_ok_digits {s : String} {digits : List Char} {plus : Bool}
    (h : normalize s = .ok (digits, plus)) : ∀ c ∈ digits, c.isDigit = true := by
  unfold normalize at h
  split at h
  · exact absurd h (by simp)
  · rw [Except.ok.injEq, Prod.mk.injEq] at h
    intro c hc
    rw [← h.1] at hc
    exact (List.mem_filter.mp hc).2

/-- Inversion for a single calling-code-length attempt. -/
theorem matchCodeLen_ok {k : Nat} {ds rest : List Char} {ccc : Nat}
    (h : matchCodeLen k ds = some (ccc, rest)) :
    ccc ∈ registeredCodes ∧ rest = ds.drop k := by
  unfold matchCodeLen at h
  split at h
  case h_1 c hf =>
    rw [Option.some.injEq, Prod.mk.injEq] at h
    exact ⟨h.1 ▸ List.mem_of_find?_eq_some hf, h.2.symm⟩
  case h_2 => exact absurd h (by simp)

/-- Inversion for the greedy calling-code matcher: the matched code is
registered and the remainder is a suffix of the input digits. -/
theorem matchCode_ok {ds rest : List Char} {ccc : Nat}
    (h : matchCode ds = some (ccc, rest)) :
    ccc ∈ registeredCodes ∧ ∀ c ∈ rest, c ∈ ds := by
  unfold matchCode at h
  split at h
  case h_1 r h3 =>
    rw [h] at h3
    obtain ⟨h1, h2⟩ := matchCodeLen_ok h3
    exact ⟨h1, fun c hc => List.mem_of_mem_drop (h2 ▸ hc)⟩
  case h_2 =>
    split at h
    case h_1 r h2 =>
      rw [h] at h2
      obtain ⟨h1, h2⟩ := matchCodeLen_ok h2
      exact ⟨h1, fun c hc => List.mem_of_mem_drop (h2 ▸ hc)⟩
    case h_2 =>
      obtain ⟨h1, h2⟩ := matchCodeLen_ok h
      exact ⟨h1, fun c hc => List.mem_of_mem_drop (h2 ▸ hc)⟩

/-- Every region of the Metadata Store uses a registered calling code. -/
theorem metadata_code_registered :
    ∀ m ∈ metadataList, m.country_calling_code ∈ registeredCodes := by decide

/-- Inversion for the resolver: a resolved calling code is registered and
the remaining digits come from the normalized digits. -/
theorem resolve_ok_some {digits rest : List Char} {plus : Bool}
    {d : Option String} {ccc : Nat}
    (h : resolve digits plus d = .ok (some (ccc, rest))) :
    ccc ∈ registeredCodes ∧ ∀ c ∈ rest, c ∈ digits := by
  unfold resolve at h
  split at h
  · rw [Except.ok.injEq] at h
    exact matchCode_ok h
  · split at h
    · rw [Except.ok.injEq] at h
      obtain ⟨h1, h2⟩ := matchCode_ok h
      exact ⟨h1, fun c hc => List.mem_of_mem_drop (h2 c hc)⟩
    · split at h
      · rw [Except.ok.injEq] at h
        obtain ⟨h1, h2⟩ := matchCode_ok h
        exact ⟨h1, fun c hc => List.mem_of_mem_drop (h2 c hc)⟩
      · split at h
        case h_1 rc =>
          split at h
          case h_1 m hf =>
            rw [Except.ok.injEq, Option.some.injEq, Prod.mk.injEq] at h
            refine ⟨h.1 ▸ metadata_code_registered m (List.mem_of_find?_eq_some hf), ?_⟩
            intro c hc
            rw [← h.2] at hc
            exact hc
          case h_2 => exact absurd h (by simp)
        case h_2 => exact absurd h (by simp)

/-- Stripping a national prefix only removes characters. -/
theorem stripTrunk_subset {m : RegionMetadata} {ds : List Char} {c : Char}
    (h : c ∈ stripTrunk m ds) : c ∈ ds := by
  unfold stripTrunk at h
  split at h
  · exact h
  · split at h
    · exact List.mem_of_mem_drop h
    · exact h

/-- Inversion for the Number Matcher: the matched region is a candidate,
the national significant number is the region's stripped digit sequence,
and it satisfies the region's rules. -/
theorem matchRegion_ok {cands : List RegionMetadata} {ds nsn : List Char}
    {m : RegionMetadata} (h : matchRegion cands ds = some (m, nsn)) :
    m ∈ cands ∧ nsn = stripTrunk m ds ∧ regionMatches m nsn = true := by
  induction cands with
  | nil => exact absurd h (by simp [matchRegion])
  | cons m0 ms ih =>
    unfold matchRegion at h
    split at h
    case isTrue hmt =>
      rw [Option.some.injEq, Prod.mk.injEq] at h
      obtain ⟨rfl, rfl⟩ := h
      exact ⟨List.mem_cons_self m0 ms, rfl, hmt⟩
    case isFalse =>
      obtain ⟨h1, h2, h3⟩ := ih h
      exact ⟨List.mem_cons_of_mem m0 h1, h2, h3⟩

/-- A first leading-digit bound of at least 1 rules out a leading zero,
so a matching digit sequence is not stripped again. -/
theorem strip_zero_of_leading {lo hi : Nat} (hlo : 1 ≤ lo)
    {ps : List (Nat × Nat)} {d : List Char}
    (h : leadingOk ((lo, hi) :: ps) d = true) :
    (if d.take 1 = ['0'] then d.drop 1 else d) = d := by
  cases d with
  | nil => exact absurd h (by simp [leadingOk])
  | cons c cs =>
    rw [if_neg]
    intro heq
    simp only [List.take_succ_cons, List.take_zero, List.cons.injEq, and_true] at heq
    unfold leadingOk at h
    rw [Bool.and_eq_true, Bool.and_eq_true, decide_eq_true_eq] at h
    have hle := h.1.1
    rw [heq, show digitVal '0' = 0 from rfl] at hle
    omega

/-- No region of the Metadata Store re-strips a digit sequence that
already matches it: national prefixes are `0` while every general pattern
requires a nonzero first digit. -/
theorem stripTrunk_of_matches {m : RegionMetadata} (hm : m ∈ metadataList)
    {d : List Char} (h : regionMatches m d = true) :
    stripTrunk m d = d := by
  have h2 : leadingOk m.general_pattern d = true := by
    unfold regionMatches at h
    rw [Bool.and_eq_true] at h
    exact h.2
  simp only [metadataList, List.mem_cons, List.not_mem_nil, or_false] at hm
  rcases hm with rfl | rfl | rfl | rfl | rfl | rfl | rfl | rfl
  · rfl
  · rfl
  · exact strip_zero_of_leading (by decide) h2
  · exact strip_zero_of_leading (by decide) h2
  · exact strip_zero_of_leading (by decide) h2
  · exact strip_zero_of_leading (by decide) h2
  · exact strip_zero_of_leading (by decide) h2
  · exact strip_zero_of_leading (by decide) h2

/-- Filtering the grouped rendering with a predicate that keeps every
digit of the sequence and drops spaces recovers the digit sequence. -/
theorem groupChars_filter (p : Char → Bool) (hsp : p ' ' = false) :
    ∀ (gs : List Nat) (ds : List Char), (∀ c ∈ ds, p c = true) →
    (groupChars gs ds).filter p = ds := by
  intro gs
  induction gs with
  | nil =>
    intro ds hd
    exact List.filter_eq_self.mpr hd
  | cons g gs ih =>
    intro ds hd
    unfold groupChars
    split
    · exact List.filter_eq_self.mpr hd
    · rw [List.filter_append,
        List.filter_eq_self.mpr (fun c hc => hd c (List.mem_of_mem_take hc)),
        List.filter_cons_of_neg (by simp [hsp]),
        ih (ds.drop g) (fun c hc => hd c (List.mem_of_mem_drop hc)),
        List.take_append_drop]

/-- The formatter's output, filtered back to the kept characters,
recovers the digit sequence. -/
theorem applyRules_filter (p : Char → Bool) (hsp : p ' ' = false)
    (m : RegionMetadata) (nsn : List Char) (hd : ∀ c ∈ nsn, p c = true) :
    (applyRules m nsn).filter p = nsn := by
  unfold applyRules
  split
  · exact List.filter_eq_self.mpr hd
  · split
    · exact groupChars_filter p hsp _ nsn hd
    · exact List.filter_eq_self.mpr hd

/-- The decimal rendering of a registered calling code consists of
digits. -/
theorem code_data_digit {ccc : Nat} (hc : ccc ∈ registeredCodes) :
    ∀ c ∈ (toString ccc).data, c.isDigit = true := by
  simp only [registeredCodes, List.mem_cons, List.not_mem_nil, or_false] at hc
  rcases hc with rfl | rfl | rfl | rfl | rfl | rfl | rfl <;> decide

/-- The greedy calling-code matcher recovers a registered code prepended
to any remainder: no registered code is three digits long, and no
two-digit code is a proper extension of another code's digits. -/
theorem matchCode_prepend {ccc : Nat} (hc : ccc ∈ registeredCodes)
    (rest : List Char) :
    matchCode ((toString ccc).data ++ rest) = some (ccc, rest) := by
  simp only [registeredCodes, List.mem_cons, List.not_mem_nil, or_false] at hc
  rcases hc with rfl | rfl | rfl | rfl | rfl | rfl | rfl <;> rfl

/-- Normalizing a rendered international format recovers an explicit plus
and the calling-code digits followed by the national significant number. -/
theorem normalize_intl {m : RegionMetadata} {ccc : Nat}
    (hc : ccc ∈ registeredCodes) {nsn : List Char}
    (hd : ∀ c ∈ nsn, c.isDigit = true) :
    normalize (intlFormatStr m ccc nsn) = .ok ((toString ccc).data ++ nsn, true) := by
  have hdata : (intlFormatStr m ccc nsn).data
      = '+' :: ((toString ccc).data ++ ' ' :: applyRules m nsn) := by
    unfold intlFormatStr
    rw [String.data_append, String.data_append, String.data_append]
    simp
  have hkeep : ∀ c ∈ (toString ccc).data, keepChar c = true := by
    intro c hcm
    simp [keepChar, code_data_digit hc c hcm]
  have hkept : (intlFormatStr m ccc nsn).data.filter keepChar
      = '+' :: ((toString ccc).data ++ nsn) := by
    rw [hdata, List.filter_cons_of_pos (by decide), List.filter_append,
      List.filter_eq_self.mpr hkeep,
      List.filter_cons_of_neg (by decide),
      applyRules_filter keepChar (by decide) m nsn
        (fun c hcm => by simp [keepChar, hd c hcm])]
  unfold normalize
  rw [hkept]
  show Except.ok (('+' :: ((toString ccc).data ++ nsn)).filter Char.isDigit,
      '+' == '+') = Except.ok ((toString ccc).data ++ nsn, true)
  rw [List.filter_cons_of_neg (by decide), List.filter_append,
    List.filter_eq_self.mpr (code_data_digit hc),
    List.filter_eq_self.mpr hd]
  rfl

/-- When no candidate defines a national prefix, the matched national
significant number is the input digit sequence itself. -/
theorem matchRegion_nsn_of_no_trunk {cands : List RegionMetadata}
    (hnone : ∀ c ∈ cands, c.trunk_code = none) {ds nsn : List Char}
    {m : RegionMetadata} (h : matchRegion cands ds = some (m, nsn)) :
    nsn = ds := by
  induction cands with
  | nil => exact absurd h (by simp [matchRegion])
  | cons m0 ms ih =>
    have hm0 : stripTrunk m0 ds = ds := by
      unfold stripTrunk
      rw [hnone m0 (List.mem_cons_self m0 ms)]
    unfold matchRegion at h
    rw [hm0] at h
    split at h
    · rw [Option.some.injEq, Prod.mk.injEq] at h
      exact h.2.symm
    · exact ih (fun c hc => hnone c (List.mem_cons_of_mem m0 hc)) h

/-- Re-running the Number Matcher of a single metadata region on its own
matched national significant number reproduces the match. -/
theorem matchRegion_singleton_again {m0 : RegionMetadata}
    (hm0 : m0 ∈ metadataList) {ds nsn : List Char} {m : RegionMetadata}
    (h : matchRegion [m0] ds = some (m, nsn)) :
    matchRegion [m0] nsn = some (m, nsn) := by
  unfold matchRegion at h
  split at h
  case isTrue hmt =>
    rw [Option.some.injEq, Prod.mk.injEq] at h
    obtain ⟨rfl, rfl⟩ := h
    unfold matchRegion
    rw [stripTrunk_of_matches hm0 hmt, if_pos hmt]
  case isFalse => exact absurd h (by simp [matchRegion])

/-- Re-running the Number Matcher on a matched national significant
number reproduces the matched region and number, for every registered
calling code's candidate list. -/
theorem matchRegion_again {ccc : Nat} (hc : ccc ∈ registeredCodes)
    {ds nsn : List Char} {m : RegionMetadata}
    (h : matchRegion (candidatesFor ccc) ds = some (m, nsn)) :
    matchRegion (candidatesFor ccc) nsn = some (m, nsn) := by
  simp only [registeredCodes, List.mem_cons, List.not_mem_nil, or_false] at hc
  rcases hc with rfl | rfl | rfl | rfl | rfl | rfl | rfl
  · have hnsn : nsn = ds := matchRegion_nsn_of_no_trunk (by decide) h
    subst hnsn
    exact h
  · exact matchRegion_singleton_again (by decide) h
  · exact matchRegion_singleton_again (by decide) h
  · exact matchRegion_singleton_again (by decide) h
  · exact matchRegion_singleton_again (by decide) h
  · exact matchRegion_singleton_again (by decide) h
  · exact matchRegion_singleton_again (by decide) h

/-- Inversion of the facade on a valid result: it decomposes into a
successful normalization, resolution and region match, and the result is
the valid record built from them. -/
theorem validate_ok_valid {s : String} {d : Option String}
    {r : ParsedPhoneNumber} (h : validate s d = .ok r)
    (hv : r.is_valid = true) :
    ∃ digits plus ccc rest m nsn,
      normalize s = .ok (digits, plus) ∧
      resolve digits plus d = .ok (some (ccc, rest)) ∧
      matchRegion (candidatesFor ccc) rest = some (m, nsn) ∧
      r = mkValidParsed s ccc m nsn := by
  unfold validate at h
  split at h
  · exact absurd h (by simp)
  case h_2 digits plus heq =>
    split at h
    · exact absurd h (by simp)
    · rw [Except.ok.injEq] at h
      rw [← h] at hv
      exact absurd hv (by simp [mkInvalidParsed])
    case h_3 ccc rest heq2 =>
      split at h
      case h_1 m nsn hmr =>
        rw [Except.ok.injEq] at h
        exact ⟨digits, plus, ccc, rest, m, nsn, heq, heq2, hmr, h.symm⟩
      case h_2 =>
        rw [Except.ok.injEq] at h
        rw [← h] at hv
        exact absurd hv (by simp [mkInvalidParsed])

/-! ### Helper lemmas about the wrapper -/

/-- Indexing a list at a position reduced modulo its length succeeds
exactly when the list is nonempty. -/
theorem get_mod_isSome (l : List String) (n : Nat) :
    (l.get? (n % l.length)).isSome = true ↔ l ≠ [] := by
  rw [List.get?_eq_getElem?, Option.isSome_iff_ne_none, ne_eq,
    List.getElem?_eq_none_iff]
  constructor
  · intro h hl
    subst hl
    simp at h
  · intro h
    have := Nat.mod_lt n (List.length_pos.mpr h)
    omega

/-- Inversion of the wrapper on a valid result: it comes from a valid
engine result through `mkValidInfo`. -/
theorem analyze_some_valid {rand : Nat} {number : String} {info : PhoneInfo}
    (h : analyzePhoneNumber rand number = some info)
    (hv : info.isValid = true) :
    ∃ p, validate number none = .ok p ∧ p.is_valid = true ∧
      info = mkValidInfo rand p := by
  unfold analyzePhoneNumber at h
  split at h
  · exact absurd h (by simp)
  · split at h
    case h_1 p hpeq =>
      split at h
      case isTrue hp =>
        rw [Option.some.injEq] at h
        exact ⟨p, hpeq, hp, h.symm⟩
      case isFalse =>
        rw [Option.some.injEq] at h
        rw [← h] at hv
        exact absurd hv (by simp)
    case h_2 =>
      rw [Option.some.injEq] at h
      rw [← h] at hv
      exact absurd hv (by simp)

/-- Inversion of the wrapper on an invalid result: it is the bare record
`isValid = false` with every other field absent. -/
theorem analyze_some_invalid {rand : Nat} {number : String} {info : PhoneInfo}
    (h : analyzePhoneNumber rand number = some info)
    (hv : info.isValid = false) :
    info = { isValid := false } := by
  unfold analyzePhoneNumber at h
  split at h
  · exact absurd h (by simp)
  · split at h
    case h_1 p hpeq =>
      split at h
      case isTrue hp =>
        rw [Option.some.injEq] at h
        rw [← h] at hv
        exact absurd hv (by simp [mkValidInfo])
      case isFalse =>
        rw [Option.some.injEq] at h
        exact h.symm
    case h_2 =>
      rw [Option.some.injEq] at h
      exact h.symm

/-- The facade composed from successful normalization, resolution and a
region match returns the valid record. -/
theorem validate_steps_valid {s : String} {d : Option String}
    {digits rest nsn : List Char} {plus : Bool} {ccc : Nat}
    {m : RegionMetadata}
    (hn : normalize s = .ok (digits, plus))
    (hres : resolve digits plus d = .ok (some (ccc, rest)))
    (hm : matchRegion (candidatesFor ccc) rest = some (m, nsn)) :
    validate s d = .ok (mkValidParsed s ccc m nsn) := by
  simp only [validate, hn, hres, hm]

/-- The facade composed from successful normalization and resolution but
a failed region match returns the invalid record that retains the
resolved calling code. -/
theorem validate_steps_invalid {s : String} {d : Option String}
    {digits rest : List Char} {plus : Bool} {ccc : Nat}
    (hn : normalize s = .ok (digits, plus))
    (hres : resolve digits plus d = .ok (some (ccc, rest)))
    (hm : matchRegion (candidatesFor ccc) rest = none) :
    validate s d = .ok (mkInvalidParsed s (some ccc)) := by
  simp only [validate, hn, hres, hm]

/-! ### Claims -/

/-- C1: the claim that validation is deterministic — in particular that no
randomly chosen carrier appears in the returned value — fails on the code:
`analyzePhoneNumber` embeds the random draw in its result, so two draws on
the identical input `"+1 555-123-4567"` return different records, whose
carrier fields are the randomly selected `"Verizon"` and `"AT&T"`. -/
theorem c1_random_carrier_nondeterminism :
    (analyzePhoneNumber 0 "+1 555-123-4567").map (fun i => i.carrier)
        = some (some "Verizon") ∧
    (analyzePhoneNumber 1 "+1 555-123-4567").map (fun i => i.carrier)
        = some (some "AT&T") ∧
    analyzePhoneNumber 0 "+1 555-123-4567"
        ≠ analyzePhoneNumber 1 "+1 555-123-4567" :=
  ⟨rfl, rfl, by decide⟩

/-- C2: for every input whose digits resolve to a calling code but match
no candidate region's pattern, `validate` returns a successful result with
`is_valid = false` — it does not fail. -/
theorem c2_merely_invalid_is_ok {s : String} {d : Option String}
    {digits rest : List Char} {plus : Bool} {ccc : Nat}
    (hn : normalize s = .ok (digits, plus))
    (hres : resolve digits plus d = .ok (some (ccc, rest)))
    (hm : matchRegion (candidatesFor ccc) rest = none) :
    ∃ r, validate s d = Except.ok r ∧ r.is_valid = false :=
  ⟨mkInvalidParsed s (some ccc), validate_steps_invalid hn hres hm, rfl⟩

/-- Witness for C2 at the merely invalid input `"+44 12 3456"` (resolves
calling code 44, but six digits match no GB length). -/
theorem c2_witness :
    ∃ r, validate "+44 12 3456" none = Except.ok r ∧ r.is_valid = false :=
  c2_merely_invalid_is_ok rfl rfl rfl

/-- C3: every input retaining no digit or plus characters after
normalization fails with `EmptyInputError`. -/
theorem c3_empty_input (s : String) (d : Option String)
    (h : s.data.filter keepChar = []) :
    validate s d = Except.error ValidationError.EmptyInputError := by
  simp only [validate, normalize, h]

/-- Witness for C3 at the empty input with no default region. -/
theorem c3_witness :
    validate "" none = Except.error ValidationError.EmptyInputError :=
  c3_empty_input "" none rfl

/-- C4: every input with no leading plus, no detectable IDD prefix and no
default region fails with `AmbiguousRegionError`. -/
theorem c4_ambiguous_region {s : String} {digits : List Char}
    (hn : normalize s = .ok (digits, false))
    (h3 : ¬digits.take 3 = ['0', '1', '1'])
    (h2 : ¬digits.take 2 = ['0', '0']) :
    validate s none = Except.error ValidationError.AmbiguousRegionError := by
  simp only [validate, hn, resolve, if_neg h3, if_neg h2, Bool.false_eq_true,
    if_false]

/-- Witness for C4 at the input `"12345"` with no default region. -/
theorem c4_witness :
    validate "12345" none = Except.error ValidationError.AmbiguousRegionError :=
  c4_ambiguous_region rfl (by decide) (by decide)

/-- C5: `validate "+1 555-123-4567" none` returns a valid result with
calling code 1, region `"US"` and national significant number
`"5551234567"`. -/
theorem c5_us_example :
    ∃ r, validate "+1 555-123-4567" none = Except.ok r ∧
      r.is_valid = true ∧ r.country_calling_code = some 1 ∧
      r.region_code = "US" ∧ r.national_significant_number = "5551234567" :=
  ⟨mkValidParsed "+1 555-123-4567" 1 usMeta "5551234567".data,
    rfl, rfl, rfl, rfl, rfl⟩

/-- C6: every input whose calling code resolves but that matches no
candidate region's pattern yields a result with `is_valid = false` and
`region_code = "unknown"` that retains the resolved calling code. -/
theorem c6_unknown_region {s : String} {d : Option String}
    {digits rest : List Char} {plus : Bool} {ccc : Nat}
    (hn : normalize s = .ok (digits, plus))
    (hres : resolve digits plus d = .ok (some (ccc, rest)))
    (hm : matchRegion (candidatesFor ccc) rest = none) :
    ∃ r, validate s d = Except.ok r ∧ r.is_valid = false ∧
      r.region_code = "unknown" ∧ r.country_calling_code = some ccc :=
  ⟨mkInvalidParsed s (some ccc), validate_steps_invalid hn hres hm,
    rfl, rfl, rfl⟩

/-- Witness for C6 at `"+1 000-000-0000"`: calling code 1 resolves, no
NANPA candidate matches. -/
theorem c6_witness :
    ∃ r, validate "+1 000-000-0000" none = Except.ok r ∧
      r.is_valid = false ∧ r.region_code = "unknown" ∧
      r.country_calling_code = some 1 :=
  c6_unknown_region rfl rfl rfl

/-- C7: re-running `validate` on a valid result's international format
yields an equivalent result — same region code and same national
significant number. -/
theorem c7_roundtrip {s : String} {d : Option String}
    {r : ParsedPhoneNumber} {f : String}
    (h : validate s d = Except.ok r) (hv : r.is_valid = true)
    (hf : r.international_format = some f) :
    ∃ r2, validate f none = Except.ok r2 ∧
      r2.region_code = r.region_code ∧
      r2.national_significant_number = r.national_significant_number := by
  obtain ⟨digits, plus, ccc, rest, m, nsn, hn, hres, hm, rfl⟩ :=
    validate_ok_valid h hv
  obtain ⟨hccc, hrestd⟩ := resolve_ok_some hres
  have hdig := normalize_ok_digits hn
  obtain ⟨hmem, hnsn_eq, hmatch⟩ := matchRegion_ok hm
  have hnsnd : ∀ c ∈ nsn, c.isDigit = true := by
    intro c hcm
    exact hdig c (hrestd c (stripTrunk_subset (hnsn_eq ▸ hcm)))
  have hf2 : f = intlFormatStr m ccc nsn := by
    simp only [mkValidParsed, Option.some.injEq] at hf
    exact hf.symm
  subst hf2
  have hn2 := @normalize_intl m ccc hccc nsn hnsnd
  have hres2 : resolve ((toString ccc).data ++ nsn) true none
      = .ok (some (ccc, nsn)) := by
    show Except.ok (matchCode ((toString ccc).data ++ nsn))
        = Except.ok (some (ccc, nsn))
    rw [matchCode_prepend hccc]
  have hm2 := matchRegion_again hccc hm
  exact ⟨mkValidParsed (intlFormatStr m ccc nsn) ccc m nsn,
    validate_steps_valid hn2 hres2 hm2, rfl, rfl⟩

/-- Witness for C7: validating the US example, then validating its
rendered international format `"+1 555 123 4567"`, reproduces region
`"US"` and national significant number `"5551234567"`. -/
theorem c7_witness :
    ∃ r2, validate "+1 555 123 4567" none = Except.ok r2 ∧
      r2.region_code = "US" ∧
      r2.national_significant_number = "5551234567" := by
  obtain ⟨r2, h1, h2, h3⟩ := @c7_roundtrip "+1 555-123-4567" none
    (mkValidParsed "+1 555-123-4567" 1 usMeta "5551234567".data)
    "+1 555 123 4567" rfl rfl rfl
  exact ⟨r2, h1, h2, h3⟩

/-- The carrier table lookup yields a nonempty list exactly for its seven
keys. -/
theorem carrierInfo_lookup_nonempty (rc : String) :
    ((carrierInfo.lookup rc).getD [] ≠ []) ↔
      rc ∈ ["US", "IN", "GB", "DE", "FR", "CA", "AU"] := by
  by_cases h1 : rc = "US"
  · subst h1; decide
  by_cases h2 : rc = "IN"
  · subst h2; decide
  by_cases h3 : rc = "GB"
  · subst h3; decide
  by_cases h4 : rc = "DE"
  · subst h4; decide
  by_cases h5 : rc = "FR"
  · subst h5; decide
  by_cases h6 : rc = "CA"
  · subst h6; decide
  by_cases h7 : rc = "AU"
  · subst h7; decide
  have e1 : (rc == "US") = false := beq_eq_false_iff_ne.mpr h1
  have e2 : (rc == "IN") = false := beq_eq_false_iff_ne.mpr h2
  have e3 : (rc == "GB") = false := beq_eq_false_iff_ne.mpr h3
  have e4 : (rc == "DE") = false := beq_eq_false_iff_ne.mpr h4
  have e5 : (rc == "FR") = false := beq_eq_false_iff_ne.mpr h5
  have e6 : (rc == "CA") = false := beq_eq_false_iff_ne.mpr h6
  have e7 : (rc == "AU") = false := beq_eq_false_iff_ne.mpr h7
  simp [carrierInfo, List.lookup, e1, e2, e3, e4, e5, e6, e7,
    h1, h2, h3, h4, h5, h6, h7]

/-- C8: a valid wrapper result carries a carrier exactly when the detected
country is one of the seven keys of the `carrierInfo` table. -/
theorem c8_carrier_keys {rand : Nat} {number : String} {info : PhoneInfo}
    (h : analyzePhoneNumber rand number = some info)
    (hv : info.isValid = true) :
    info.carrier.isSome = true ↔
      ∃ c, info.countryCode = some c ∧
        c ∈ ["US", "IN", "GB", "DE", "FR", "CA", "AU"] := by
  obtain ⟨p, hvp, hval, rfl⟩ := analyze_some_valid h hv
  show ((((carrierInfo.lookup p.region_code).getD []).get?
      (rand % ((carrierInfo.lookup p.region_code).getD []).length)).isSome
        = true) ↔ _
  rw [get_mod_isSome, carrierInfo_lookup_nonempty]
  constructor
  · intro hm2
    exact ⟨p.region_code, rfl, hm2⟩
  · rintro ⟨c, hc, hm2⟩
    rw [show (mkValidInfo rand p).countryCode = some p.region_code from rfl,
      Option.some.injEq] at hc
    rw [hc]
    exact hm2

/-- Witness for C8: the valid US result at random draw 0 carries a
carrier, since `"US"` is a `carrierInfo` key. -/
theorem c8_witness :
    (mkValidInfo 0
      (mkValidParsed "+1 555-123-4567" 1 usMeta "5551234567".data)).carrier.isSome
        = true :=
  (@c8_carrier_keys 0 "+1 555-123-4567" _ rfl rfl).mpr
    ⟨"US", rfl, by decide⟩

/-- C9: every result the wrapper marks invalid is the bare record: all
fields other than `isValid = false` are absent. -/
theorem c9_invalid_bare {rand : Nat} {number : String} {info : PhoneInfo}
    (h : analyzePhoneNumber rand number = some info)
    (hv : info.isValid = false) :
    info.country = none ∧ info.countryCode = none ∧ info.region = none ∧
      info.nationalNumber = none ∧ info.internationalFormat = none ∧
      info.carrier = none := by
  rw [analyze_some_invalid h hv]
  exact ⟨rfl, rfl, rfl, rfl, rfl, rfl⟩

/-- Witness for C9 at the invalid input `"+1 000-000-0000"`. -/
theorem c9_witness :
    ({ isValid := false } : PhoneInfo).country = none ∧
      ({ isValid := false } : PhoneInfo).countryCode = none ∧
      ({ isValid := false } : PhoneInfo).region = none ∧
      ({ isValid := false } : PhoneInfo).nationalNumber = none ∧
      ({ isValid := false } : PhoneInfo).internationalFormat = none ∧
      ({ isValid := false } : PhoneInfo).carrier = none :=
  @c9_invalid_bare 0 "+1 000-000-0000" _ rfl rfl

/-- C10: every valid wrapper result sets `region` and `country` to the
same display name — the `countryNames` entry for the detected country
code, or the raw code when the table has no entry. -/
theorem c10_region_eq_country {rand : Nat} {number : String}
    {info : PhoneInfo} (h : analyzePhoneNumber rand number = some info)
    (hv : info.isValid = true) :
    info.region = info.country ∧
      ∃ c, info.countryCode = some c ∧
        info.country = some ((countryNames.lookup c).getD c) := by
  obtain ⟨p, hvp, hval, rfl⟩ := analyze_some_valid h hv
  exact ⟨rfl, p.region_code, rfl, rfl⟩

/-- Witness for C10 at the valid Indian example number. -/
theorem c10_witness :
    (mkValidInfo 0
        (mkValidParsed "+91 98765 43210" 91 inMeta "9876543210".data)).region
      = (mkValidInfo 0
        (mkValidParsed "+91 98765 43210" 91 inMeta "9876543210".data)).country ∧
    ∃ c, (mkValidInfo 0
        (mkValidParsed "+91 98765 43210" 91 inMeta "9876543210".data)).countryCode
          = some c ∧
      (mkValidInfo 0
        (mkValidParsed "+91 98765 43210" 91 inMeta "9876543210".data)).country
          = some ((countryNames.lookup c).getD c) :=
  @c10_region_eq_country 0 "+91 98765 43210" _ rfl rfl

end PhoneValidator
